import Mathlib

/-!
Shallow embedding of the A2DB Arrow Flight client core
(`a2flight_client.py`, v2.4): the connection/authentication state
machine, the action-framing protocol for UPDATE/DELETE, the CRUD
guard, and the module-level global-client facade.

Transport primitives (list_actions, authenticate_basic_token, do_put,
do_get, do_action) are external collaborators; a `Transport` record
gives each primitive's outcome, and every operation is modelled as a
pure function returning its result together with the trace of
primitives it invoked.
-/

namespace A2Flight

/-! ## Strings: Python substring membership (`needle in hay`) -/

/-- Bool test that `needle` occurs as a contiguous substring of `hay`,
modelling Python `needle in hay` (over the character list). -/
def infixCheck (needle : List Char) : List Char → Bool
  | [] => needle.isEmpty
  | c :: t => needle.isPrefixOf (c :: t) || infixCheck needle t

/-- `strContains hay needle` models Python `needle in hay`. -/
def strContains (hay needle : String) : Bool :=
  infixCheck needle.data hay.data

/-- Python `str.lower()` (ASCII case folding, characterwise). -/
def lowerStr (s : String) : String := ⟨s.data.map Char.toLower⟩

/-- Python `s[:n]` (first `n` characters). -/
def takeStr (s : String) (n : Nat) : String := ⟨s.data.take n⟩

/-- `lcontains hay needle` models Python `needle in hay.lower()`. -/
def lcontains (hay needle : String) : Bool :=
  strContains (lowerStr hay) needle

/-- A single-quote character, used in the client's error messages. -/
def sq : String := String.singleton (Char.ofNat 39)

/-! ## Data model: columnar batches and IPC-stream bytes

A `ColumnarBatch` is an ordered list of named columns (name, cells).
The pyarrow IPC streaming codec is self-describing and round-trips a
table exactly; byte payloads produced by it are modelled by the
constructor `IpcBytes.ipcStream` carrying the encoded table. -/

mutual
/-- A cell value in a columnar batch: bool, int, string, or an opaque
byte payload (in this protocol, always an IPC-stream encoding). -/
inductive AValue : Type where
  | vBool : Bool → AValue
  | vInt : Int → AValue
  | vStr : String → AValue
  | vBytes : IpcBytes → AValue

/-- Bytes produced by `pa.ipc.new_stream` / consumed by
`pa.ipc.open_stream`: a self-describing streaming encoding of a table
(list of (column name, cells)). -/
inductive IpcBytes : Type where
  | ipcStream : List (String × List AValue) → IpcBytes
end

/-- A columnar table: named columns with equal-length cell lists. -/
abbrev ColumnarBatch := List (String × List AValue)

/-- Serialize a table to IPC streaming bytes
(`pa.ipc.new_stream` + `write_table` + `close`). -/
def ipcEncode (t : ColumnarBatch) : IpcBytes := .ipcStream t

/-- Deserialize IPC streaming bytes back to a table
(`pa.ipc.open_stream` + `read_all`). -/
def ipcDecode : IpcBytes → ColumnarBatch
  | .ipcStream t => t

/-- `table[name]`: look up a column by name. -/
def getColumn (t : ColumnarBatch) (name : String) : Option (List AValue) :=
  match t.find? (fun c => c.1 == name) with
  | some c => some c.2
  | none => none

/-- `table[name][0]`: the row-0 cell of a named column, if present. -/
def getCell0 (t : ColumnarBatch) (name : String) : Option AValue :=
  match getColumn t name with
  | some (v :: _) => some v
  | _ => none

/-- `name in table.schema.names`. -/
def hasColumn (t : ColumnarBatch) (name : String) : Bool :=
  (getColumn t name).isSome

/-- `arrow_table.num_rows` (all columns have equal length). -/
def numRows (t : ColumnarBatch) : Nat :=
  match t with
  | [] => 0
  | c :: _ => c.2.length

/-! ## Configuration and transport -/

/-- The slice of `A2FlightClientConfig` the client core reads. -/
structure A2FlightClientConfig where
  client_name : String
  api_key : String
  server_location : String

/-- The default `api_key` sentinel meaning "no credential configured". -/
def sentinelApiKey : String := "<to be entered>"

/-- The five transport primitives the client may invoke. -/
inductive Prim : Type where
  | listActions
  | authenticateBasicToken
  | doPut
  | doGet
  | doAction
deriving DecidableEq, Repr

/-- Outcomes of the transport primitives for one call: each either
succeeds with a value or fails with an error text (`str(e)`).
`doGet` returns the stream's chunk sequence; `doAction` returns the
decoded concatenation of the response chunk bodies. -/
structure Transport where
  listActions : Except String Unit
  authenticateBasicToken : Except String Unit
  doPut : String → ColumnarBatch → Except String Unit
  doGet : String → Except String (List ColumnarBatch)
  doAction : String → IpcBytes → Except String IpcBytes

/-- The mutable fields of `A2FlightClient`: `_connected` and whether
`_client` is non-None. -/
structure ClientState where
  connected : Bool
  hasClient : Bool
deriving DecidableEq, Repr

/-- State of a freshly constructed client (`__init__`). -/
def initialState : ClientState := ⟨false, false⟩

/-- The `is_connected` property: `_connected and _client is not None`. -/
def isConnected (s : ClientState) : Bool := s.connected && s.hasClient

/-! ## `_authenticate`: error classification -/

/-- The message of the `A2FlightClientError` raised by `_authenticate`
when `authenticate_basic_token` fails with text `e`: the five
classification branches of the `except` block. -/
def authClassify (cfg : A2FlightClientConfig) (e : String) : String :=
  if lcontains e "invalid api key" then
    "Authentication failed: Invalid API key for client " ++ sq ++ cfg.client_name ++ sq ++ ".\n" ++
    "Verify API key with server administrator.\n" ++
    "Current API key starts with: " ++ takeStr cfg.api_key 12 ++ "..."
  else if lcontains e "ip not whitelisted" || lcontains e "access denied" then
    "Authentication failed: IP address not whitelisted for client " ++ sq ++ cfg.client_name ++ sq ++ ".\n" ++
    "Contact server administrator to whitelist your IP address.\n" ++
    "Check server logs for your detected IP address."
  else if lcontains e "client disabled" then
    "Authentication failed: Client " ++ sq ++ cfg.client_name ++ sq ++ " is disabled.\n" ++
    "Contact server administrator to enable your client."
  else if lcontains e "unauthenticated" then
    "Authentication failed for client " ++ sq ++ cfg.client_name ++ sq ++ ".\n" ++
    "Possible reasons:\n" ++
    "  - Invalid API key\n" ++
    "  - IP address not whitelisted\n" ++
    "  - Client disabled on server\n" ++
    "Original error: " ++ e
  else
    "Authentication failed: " ++ e

/-- `_authenticate`: invoke `authenticate_basic_token`; on failure raise
`A2FlightClientError` with the classified message. -/
def authenticateRun (cfg : A2FlightClientConfig) (t : Transport) : Except String Unit :=
  match t.authenticateBasicToken with
  | .ok _ => .ok ()
  | .error e => .error (authClassify cfg e)

/-! ## `connect` -/

/-- `connect`'s outer `except` handler: normalize unreachable-server
errors to one message, wrap everything else as "Connection failed". -/
def connectWrapError (cfg : A2FlightClientConfig) (e : String) : String :=
  if lcontains e "unavailable" || lcontains e "failed to connect" ||
      lcontains e "connection refused" then
    "Arrow Flight server is not running at " ++ cfg.server_location
  else
    "Connection failed: " ++ e

/-- Outcome of one `connect()` call: the returned value or the raised
error message, the client state afterwards, and the transport trace. -/
structure ConnectOutcome where
  result : Except String Bool
  state : ClientState
  trace : List Prim
deriving Repr

/-- `connect()`: construct the Flight client (local, no round-trip),
then, if a real credential is configured, probe `list_actions` and
auto-detect whether authentication is required; errors escaping the
body pass through the outer handler `connectWrapError`. -/
def connect (cfg : A2FlightClientConfig) (t : Transport) : ConnectOutcome :=
  if cfg.api_key != "" && cfg.api_key != sentinelApiKey then
    match t.listActions with
    | .ok _ =>
      ⟨.ok true, ⟨true, true⟩, [.listActions]⟩
    | .error e =>
      if lcontains e "unauthenticated" || lcontains e "unauthorized" then
        match authenticateRun cfg t with
        | .ok _ =>
          ⟨.ok true, ⟨true, true⟩, [.listActions, .authenticateBasicToken]⟩
        | .error msg =>
          ⟨.error (connectWrapError cfg msg), ⟨false, true⟩,
            [.listActions, .authenticateBasicToken]⟩
      else if lcontains e "unimplemented" && lcontains e "authentication" then
        ⟨.ok true, ⟨true, true⟩, [.listActions]⟩
      else
        ⟨.error (connectWrapError cfg e), ⟨false, true⟩, [.listActions]⟩
  else
    ⟨.ok true, ⟨true, true⟩, []⟩

/-! ## CRUD operations -/

/-- The `_ensure_connected` state-error message. -/
def notConnectedMsg : String := "Not connected. Call connect() first."

/-- `_ensure_connected`: raise unless `_connected` and `_client` set. -/
def ensureConnected (s : ClientState) : Option String :=
  if !s.connected || !s.hasClient then some notConnectedMsg else none

/-- Outcome of one CRUD call: result or raised message, plus the
transport trace. -/
structure OpOutcome (α : Type) where
  result : Except String α
  trace : List Prim

/-- The result dict of `insert` (execution time omitted). -/
structure InsertResult where
  success : Bool
  rows_written : Nat
  method_used : Option String
deriving DecidableEq, Repr

/-- `insert`: guard, then `do_put` (descriptor from the table name,
schema declared, table written, writer closed). -/
def insert (cfg : A2FlightClientConfig) (s : ClientState) (t : Transport)
    (arrow_table : ColumnarBatch) (table_name : String) : OpOutcome InsertResult :=
  match ensureConnected s with
  | some m => ⟨.error m, []⟩
  | none =>
    match t.doPut table_name arrow_table with
    | .ok _ => ⟨.ok ⟨true, numRows arrow_table, some "flight"⟩, [.doPut]⟩
    | .error e =>
      if lcontains e "unavailable" || lcontains e "failed to connect" then
        ⟨.error ("Arrow Flight server is not running at " ++ cfg.server_location), [.doPut]⟩
      else
        ⟨.error ("INSERT failed: " ++ e), [.doPut]⟩

/-- `reader.read_all()`: concatenate the chunk sequence rowwise. -/
def readAll : List ColumnarBatch → ColumnarBatch
  | [] => []
  | [c] => c
  | c :: rest =>
    (readAll rest).foldl
      (fun acc col =>
        acc.map (fun d => if d.1 == col.1 then (d.1, d.2 ++ col.2) else d))
      c

/-- `select`: guard, ticket from the query, `do_get`, materialize all. -/
def select (s : ClientState) (t : Transport) (query : String) :
    OpOutcome ColumnarBatch :=
  match ensureConnected s with
  | some m => ⟨.error m, []⟩
  | none =>
    match t.doGet query with
    | .ok chunks => ⟨.ok (readAll chunks), [.doGet]⟩
    | .error e => ⟨.error ("SELECT failed: " ++ e), [.doGet]⟩

/-- `select_streaming`: guard, `do_get`, yield the chunks lazily in
arrival order. -/
def selectStreaming (s : ClientState) (t : Transport) (query : String) :
    OpOutcome (List ColumnarBatch) :=
  match ensureConnected s with
  | some m => ⟨.error m, []⟩
  | none =>
    match t.doGet query with
    | .ok chunks => ⟨.ok chunks, [.doGet]⟩
    | .error e => ⟨.error ("SELECT streaming failed: " ++ e), [.doGet]⟩

/-! ## The update/delete action protocol -/

/-- Build the ActionEnvelope bytes for `update`/`delete`: serialize the
caller's batch to IPC bytes, wrap name and bytes in a 2-column
single-row metadata table, and serialize that table the same way. -/
def buildEnvelope (table_name : String) (arrow_table : ColumnarBatch) : IpcBytes :=
  ipcEncode [("table_name", [.vStr table_name]),
             ("data", [.vBytes (ipcEncode arrow_table)])]

/-- The spec's decoder for an ActionEnvelope (§6/§8): decode the outer
bytes, read `table_name` and `data` at row 0, decode the payload. -/
def decodeEnvelope (b : IpcBytes) : Option (String × ColumnarBatch) :=
  let t := ipcDecode b
  match getCell0 t "table_name", getCell0 t "data" with
  | some (.vStr n), some (.vBytes db) => some (n, ipcDecode db)
  | _, _ => none

/-- The result dict of `update`/`delete` (execution time omitted);
cells keep their decoded dynamic values (`as_py`). -/
structure UpdateResult where
  success : AValue
  rows_affected : AValue
  method_used : Option AValue

/-- Extract the result dict from the decoded response table:
`response_table[name][0].as_py()` for `success` and `rows_affected`
(a missing column or empty column raises), and `method_used` only when
present in the schema, else `None`. -/
def parseOpResult (t : ColumnarBatch) : Except String UpdateResult :=
  match getCell0 t "success" with
  | none => .error "KeyError: success"
  | some sv =>
    match getCell0 t "rows_affected" with
    | none => .error "KeyError: rows_affected"
    | some rv =>
      if hasColumn t "method_used" then
        match getCell0 t "method_used" with
        | none => .error "KeyError: method_used"
        | some mv => .ok ⟨sv, rv, some mv⟩
      else
        .ok ⟨sv, rv, none⟩

/-- Shared body of `update` and `delete`: guard, build the envelope,
issue the named action, concatenate and decode the response chunks,
extract the result; any failure after the guard is wrapped with the
operation tag. -/
def actionOp (tag action : String) (s : ClientState) (t : Transport)
    (arrow_table : ColumnarBatch) (table_name : String) : OpOutcome UpdateResult :=
  match ensureConnected s with
  | some m => ⟨.error m, []⟩
  | none =>
    match t.doAction action (buildEnvelope table_name arrow_table) with
    | .error e => ⟨.error (tag ++ " failed: " ++ e), [.doAction]⟩
    | .ok resp =>
      match parseOpResult (ipcDecode resp) with
      | .error e => ⟨.error (tag ++ " failed: " ++ e), [.doAction]⟩
      | .ok r => ⟨.ok r, [.doAction]⟩

/-- `update`: the `"update"` action. -/
def update (s : ClientState) (t : Transport)
    (arrow_table : ColumnarBatch) (table_name : String) : OpOutcome UpdateResult :=
  actionOp "UPDATE" "update" s t arrow_table table_name

/-- `delete`: the `"delete"` action. -/
def delete (s : ClientState) (t : Transport)
    (arrow_table : ColumnarBatch) (table_name : String) : OpOutcome UpdateResult :=
  actionOp "DELETE" "delete" s t arrow_table table_name

/-! ## `close` and the global client facade -/

/-- `close()`: if `_client` is set, close it; always end with
`_client = None` and `_connected = False`; otherwise leave the state. -/
def closeClient (s : ClientState) : ClientState :=
  if s.hasClient then ⟨false, false⟩ else s

/-- Outcome of `_get_global_client`: the module-level `_global_client`
reference afterwards, and the client delegated to (or the raised
connect error). -/
structure FacadeOutcome where
  globalClient : Option ClientState
  delegated : Except String ClientState

/-- The `_global_client is None or not _global_client.is_connected`
path: assign a fresh client to the global, `connect` it, return it;
a connect failure propagates with the reference already replaced. -/
def freshGlobalClient (cfg : A2FlightClientConfig) (t : Transport) : FacadeOutcome :=
  match (connect cfg t).result with
  | .ok _ => ⟨some (connect cfg t).state, .ok (connect cfg t).state⟩
  | .error e => ⟨some (connect cfg t).state, .error e⟩

/-- `_get_global_client`: reuse the existing client when it reports
connected, otherwise construct and connect a replacement. -/
def getGlobalClient (cfg : A2FlightClientConfig) (t : Transport)
    (g : Option ClientState) : FacadeOutcome :=
  match g with
  | some c => if isConnected c then ⟨some c, .ok c⟩ else freshGlobalClient cfg t
  | none => freshGlobalClient cfg t

/-- `a2db_close`: close the global client when present and clear the
reference; returns (new reference, final state of the old client). -/
def a2dbClose (g : Option ClientState) : Option ClientState × Option ClientState :=
  match g with
  | some c => (none, some (closeClient c))
  | none => (none, none)

/-! ## Helper lemmas -/

theorem isPrefixOf_self (l : List Char) : l.isPrefixOf l = true := by
  induction l with
  | nil => rfl
  | cons a as ih => simp [List.isPrefixOf, ih]

theorem infixCheck_append (pre needle : List Char) :
    infixCheck needle (pre ++ needle) = true := by
  induction pre with
  | nil =>
    cases needle with
    | nil => rfl
    | cons c t => simp [infixCheck, isPrefixOf_self]
  | cons c pre ih => simp [infixCheck, ih]

/-- A string always contains its own suffix: `strContains (m ++ e) e`. -/
theorem strContains_append_right (m e : String) : strContains (m ++ e) e = true := by
  obtain ⟨md⟩ := m
  obtain ⟨ed⟩ := e
  show infixCheck ed (md ++ ed) = true
  exact infixCheck_append md ed

/-! ## Concrete fixtures for counterexamples and witnesses -/

/-- A configuration with a real (non-sentinel) credential. -/
def cfgFixture : A2FlightClientConfig :=
  ⟨"etl", "test_api_key_123", "grpc+tcp://localhost:50054"⟩

/-- A transport whose basic-token authentication is rejected with the
bare server text "ip not whitelisted". -/
def tIpDenied : Transport :=
  ⟨.ok (), .error "ip not whitelisted", fun _ _ => .ok (), fun _ => .ok [],
    fun _ b => .ok b⟩

/-! ## C1 -/

/-- C1 counterexample: when `authenticate_basic_token` fails with the
text "ip not whitelisted", `_authenticate` raises the ip-not-whitelisted
branch's message, and that message does NOT contain the original
underlying error text (neither verbatim nor after lowercasing). -/
theorem C1_counterexample :
    authenticateRun cfgFixture tIpDenied =
      .error (authClassify cfgFixture "ip not whitelisted") ∧
    strContains (authClassify cfgFixture "ip not whitelisted")
      "ip not whitelisted" = false ∧
    lcontains (authClassify cfgFixture "ip not whitelisted")
      "ip not whitelisted" = false := by
  refine ⟨rfl, by decide, by decide⟩

/-- C1 amended: only the generic-unauthenticated and unclassified
branches of `_authenticate` preserve the original underlying error text
in the raised message; whenever the error text matches none of the
invalid-api-key, ip-not-whitelisted/access-denied, or client-disabled
patterns, the raised message contains the original text. -/
theorem C1_amended_auth_error_preserves_text
    (cfg : A2FlightClientConfig) (t : Transport) (e : String)
    (he : t.authenticateBasicToken = .error e)
    (h1 : lcontains e "invalid api key" = false)
    (h2 : (lcontains e "ip not whitelisted" || lcontains e "access denied") = false)
    (h3 : lcontains e "client disabled" = false) :
    authenticateRun cfg t = .error (authClassify cfg e) ∧
    strContains (authClassify cfg e) e = true := by
  constructor
  · unfold authenticateRun
    rw [he]
  · unfold authClassify
    rw [h1, h2, h3]
    simp only [Bool.false_eq_true, if_false]
    by_cases h4 : lcontains e "unauthenticated" = true
    · rw [h4]
      simp only [if_true]
      exact strContains_append_right _ e
    · rw [Bool.not_eq_true] at h4
      rw [h4]
      simp only [Bool.false_eq_true, if_false]
      exact strContains_append_right _ e

/-- C1 amended, witness at a concrete unclassified error text. -/
theorem C1_amended_witness :
    authenticateRun cfgFixture
        ⟨.ok (), .error "token expired", fun _ _ => .ok (), fun _ => .ok [],
          fun _ b => .ok b⟩ =
      .error (authClassify cfgFixture "token expired") ∧
    strContains (authClassify cfgFixture "token expired") "token expired" = true :=
  C1_amended_auth_error_preserves_text cfgFixture _ "token expired"
    rfl (by decide) (by decide) (by decide)

/-! ## C2, C3, C4: connect's auth auto-detection -/

/-- When no real credential is configured, `connect` skips the probe
and the auth step entirely and just marks the client connected. -/
theorem connect_cred_false (cfg : A2FlightClientConfig) (t : Transport)
    (h : (cfg.api_key != "" && cfg.api_key != sentinelApiKey) = false) :
    connect cfg t = ⟨.ok true, ⟨true, true⟩, []⟩ := by
  unfold connect
  rw [h]
  simp

/-- A transport failing the introspection probe with an
unauthenticated-class error and accepting basic-token auth. -/
def tAuthRequired : Transport :=
  ⟨.error "Flight returned unauthenticated error", .ok (), fun _ _ => .ok (),
    fun _ => .ok [], fun _ b => .ok b⟩

/-- A configuration with no real credential (sentinel placeholder). -/
def cfgNoCred : A2FlightClientConfig :=
  ⟨"etl", "<to be entered>", "grpc+tcp://localhost:50054"⟩

/-- An unreachable transport: every primitive fails. -/
def tDead : Transport :=
  ⟨.error "unavailable", .error "unavailable", fun _ _ => .error "unavailable",
    fun _ => .error "unavailable", fun _ _ => .error "unavailable"⟩

/-- C2: with a real credential, when the introspection probe fails with
an unauthenticated/unauthorized-class error, `connect` invokes the
authenticate primitive exactly once; if authentication succeeds, the
call returns `True` and the client reports connected. -/
theorem C2_connect_auth_detection
    (cfg : A2FlightClientConfig) (t : Transport) (e : String)
    (hk : (cfg.api_key != "" && cfg.api_key != sentinelApiKey) = true)
    (hl : t.listActions = .error e)
    (ha : (lcontains e "unauthenticated" || lcontains e "unauthorized") = true) :
    (connect cfg t).trace.count .authenticateBasicToken = 1 ∧
    (t.authenticateBasicToken = .ok () →
      (connect cfg t).result = .ok true ∧
      isConnected (connect cfg t).state = true) := by
  cases hab : t.authenticateBasicToken with
  | ok u =>
    cases u
    have hc : connect cfg t =
        ⟨.ok true, ⟨true, true⟩, [.listActions, .authenticateBasicToken]⟩ := by
      unfold connect authenticateRun
      rw [hk, hl, hab]
      simp [ha]
    rw [hc]
    exact ⟨by decide, fun _ => ⟨rfl, rfl⟩⟩
  | error ae =>
    have hc : connect cfg t =
        ⟨.error (connectWrapError cfg (authClassify cfg ae)), ⟨false, true⟩,
          [.listActions, .authenticateBasicToken]⟩ := by
      unfold connect authenticateRun
      rw [hk, hl, hab]
      simp [ha]
    rw [hc]
    exact ⟨rfl, fun h => Except.noConfusion h⟩

/-- C2 witness: concrete credentialed config against a transport whose
probe is rejected as unauthenticated and whose auth step succeeds. -/
theorem C2_witness :
    (connect cfgFixture tAuthRequired).trace.count .authenticateBasicToken = 1 ∧
    (connect cfgFixture tAuthRequired).result = .ok true ∧
    isConnected (connect cfgFixture tAuthRequired).state = true :=
  have h := C2_connect_auth_detection cfgFixture tAuthRequired
    "Flight returned unauthenticated error" (by decide) rfl (by decide)
  ⟨h.1, (h.2 rfl).1, (h.2 rfl).2⟩

/-- C3: with no credential configured (empty or sentinel api_key),
`connect` issues no transport call at all — no introspection probe, no
authenticate — and ends connected, returning `True`. -/
theorem C3_connect_no_credential
    (cfg : A2FlightClientConfig) (t : Transport)
    (h : cfg.api_key = "" ∨ cfg.api_key = sentinelApiKey) :
    connect cfg t = ⟨.ok true, ⟨true, true⟩, []⟩ := by
  apply connect_cred_false
  rcases h with h | h <;> simp [h]

/-- C3 witness: the sentinel-key config against a fully dead transport
still connects without any primitive call. -/
theorem C3_witness :
    connect cfgNoCred tDead = ⟨.ok true, ⟨true, true⟩, []⟩ :=
  C3_connect_no_credential cfgNoCred tDead (Or.inr rfl)

/-- A transport whose probe fails with an error that is neither
auth-class nor unimplemented-auth-class nor unreachable-class. -/
def tOtherErr : Transport :=
  ⟨.error "deadline exceeded", .ok (), fun _ _ => .ok (), fun _ => .ok [],
    fun _ b => .ok b⟩

/-- C4 counterexample: a probe failure of any other class is NOT
propagated unchanged: `connect` rewraps it as "Connection failed: ...",
a different error value than the original. -/
theorem C4_counterexample :
    tOtherErr.listActions = .error "deadline exceeded" ∧
    (connect cfgFixture tOtherErr).result =
      .error ("Connection failed: " ++ "deadline exceeded") ∧
    ("Connection failed: " ++ "deadline exceeded") ≠ "deadline exceeded" :=
  ⟨rfl, rfl, by decide⟩

/-- C4 amended: a probe failure that is neither auth-class nor
unimplemented-auth-class is not treated as an auth signal (no
authenticate call) and is re-raised, but `connect`'s outer handler then
rewraps it: unreachable-class texts are normalized to the
server-not-running message, and any other text is wrapped as
"Connection failed: <original>", which preserves the original text. -/
theorem C4_amended_other_error_rewrapped
    (cfg : A2FlightClientConfig) (t : Transport) (e : String)
    (hk : (cfg.api_key != "" && cfg.api_key != sentinelApiKey) = true)
    (hl : t.listActions = .error e)
    (hna : (lcontains e "unauthenticated" || lcontains e "unauthorized") = false)
    (hnu : (lcontains e "unimplemented" && lcontains e "authentication") = false) :
    (connect cfg t).trace = [.listActions] ∧
    (connect cfg t).result = .error (connectWrapError cfg e) ∧
    ((lcontains e "unavailable" || lcontains e "failed to connect" ||
        lcontains e "connection refused") = false →
      connectWrapError cfg e = "Connection failed: " ++ e ∧
      strContains (connectWrapError cfg e) e = true) := by
  have hc : connect cfg t =
      ⟨.error (connectWrapError cfg e), ⟨false, true⟩, [.listActions]⟩ := by
    unfold connect
    rw [hk, hl]
    simp [hna, hnu]
  rw [hc]
  refine ⟨rfl, rfl, fun h => ?_⟩
  have hw : connectWrapError cfg e = "Connection failed: " ++ e := by
    unfold connectWrapError
    rw [h]
    simp
  exact ⟨hw, hw ▸ strContains_append_right _ e⟩

/-- C4 amended, witness: the "deadline exceeded" probe failure is
rewrapped with its text preserved. -/
theorem C4_amended_witness :
    (connect cfgFixture tOtherErr).trace = [.listActions] ∧
    (connect cfgFixture tOtherErr).result =
      .error (connectWrapError cfgFixture "deadline exceeded") ∧
    connectWrapError cfgFixture "deadline exceeded" =
      "Connection failed: " ++ "deadline exceeded" ∧
    strContains (connectWrapError cfgFixture "deadline exceeded")
      "deadline exceeded" = true :=
  have h := C4_amended_other_error_rewrapped cfgFixture tOtherErr
    "deadline exceeded" (by decide) rfl (by decide) (by decide)
  ⟨h.1, h.2.1, (h.2.2 (by decide)).1, (h.2.2 (by decide)).2⟩

/-! ## C5: the connected-state guard -/

/-- C5: on a never-connected client (fresh `__init__` state), every
CRUD entry point — insert, select, select_streaming, update, delete —
raises the "Not connected. Call connect() first." state error with an
empty transport trace (no do_put, do_get, or do_action call). -/
theorem C5_crud_requires_connection (cfg : A2FlightClientConfig)
    (t : Transport) (batch : ColumnarBatch) (name query : String) :
    insert cfg initialState t batch name = ⟨.error notConnectedMsg, []⟩ ∧
    select initialState t query = ⟨.error notConnectedMsg, []⟩ ∧
    selectStreaming initialState t query = ⟨.error notConnectedMsg, []⟩ ∧
    update initialState t batch name = ⟨.error notConnectedMsg, []⟩ ∧
    delete initialState t batch name = ⟨.error notConnectedMsg, []⟩ :=
  ⟨rfl, rfl, rfl, rfl, rfl⟩

/-! ## C6: the ActionEnvelope round-trip -/

/-- C6: decoding the ActionEnvelope bytes built by update/delete — the
2-column single-row metadata table, IPC-stream serialized — yields back
exactly the original table name and, after decoding the extracted
payload, the original caller's batch. -/
theorem C6_envelope_roundtrip (table_name : String) (batch : ColumnarBatch) :
    decodeEnvelope (buildEnvelope table_name batch) = some (table_name, batch) :=
  rfl

/-! ## C7: response extraction for update/delete -/

/-- A row-0 cell can only be read from a column that is present. -/
theorem hasColumn_of_getCell0 {t : ColumnarBatch} {name : String} {v : AValue}
    (h : getCell0 t name = some v) : hasColumn t name = true := by
  unfold getCell0 at h
  unfold hasColumn
  cases hg : getColumn t name with
  | none => rw [hg] at h; exact Option.noConfusion h
  | some l => simp [hg]

/-- Response parsing when the schema lacks `method_used`: no error,
`method_used` defaults to `none`. -/
theorem parseOpResult_no_method (resp : ColumnarBatch) (sv rv : AValue)
    (hs : getCell0 resp "success" = some sv)
    (hr : getCell0 resp "rows_affected" = some rv)
    (hm : hasColumn resp "method_used" = false) :
    parseOpResult resp = .ok ⟨sv, rv, none⟩ := by
  unfold parseOpResult
  rw [hs, hr, hm]
  simp

/-- Response parsing when `method_used` is present at row 0. -/
theorem parseOpResult_with_method (resp : ColumnarBatch) (sv rv mv : AValue)
    (hs : getCell0 resp "success" = some sv)
    (hr : getCell0 resp "rows_affected" = some rv)
    (hmv : getCell0 resp "method_used" = some mv) :
    parseOpResult resp = .ok ⟨sv, rv, some mv⟩ := by
  unfold parseOpResult
  rw [hs, hr, hasColumn_of_getCell0 hmv, hmv]
  simp

/-- The update/delete body returns exactly what response parsing
produced, once the guard passes and the action's response bytes decode
to `resp`. -/
theorem actionOp_result_of_parse
    (tag action : String) (s : ClientState) (t : Transport)
    (batch resp : ColumnarBatch) (table_name : String) (r : UpdateResult)
    (he : ensureConnected s = none)
    (hd : t.doAction action (buildEnvelope table_name batch) = .ok (ipcEncode resp))
    (hp : parseOpResult resp = .ok r) :
    (actionOp tag action s t batch table_name).result = .ok r := by
  unfold actionOp
  rw [he, hd]
  show (match parseOpResult resp with
    | .error e => (⟨.error (tag ++ " failed: " ++ e), [.doAction]⟩ : OpOutcome UpdateResult)
    | .ok r => ⟨.ok r, [.doAction]⟩).result = .ok r
  rw [hp]

/-- C7: for an update() or delete() call whose response bytes decode to
a batch `resp` carrying `success` and `rows_affected` at row 0, the
returned result's `success` and `rows_affected` equal those decoded
row-0 values, and when the decoded schema has no `method_used` field
the call still succeeds with `method_used = none` (when the field is
present at row 0, its value is returned instead). -/
theorem C7_update_delete_response_extraction
    (s : ClientState) (t : Transport)
    (batch resp : ColumnarBatch) (table_name : String) (sv rv : AValue)
    (hc : s.connected = true) (hh : s.hasClient = true)
    (hs : getCell0 resp "success" = some sv)
    (hr : getCell0 resp "rows_affected" = some rv) :
    (t.doAction "update" (buildEnvelope table_name batch) = .ok (ipcEncode resp) →
      (hasColumn resp "method_used" = false →
        (update s t batch table_name).result = .ok ⟨sv, rv, none⟩) ∧
      (∀ mv, getCell0 resp "method_used" = some mv →
        (update s t batch table_name).result = .ok ⟨sv, rv, some mv⟩)) ∧
    (t.doAction "delete" (buildEnvelope table_name batch) = .ok (ipcEncode resp) →
      (hasColumn resp "method_used" = false →
        (delete s t batch table_name).result = .ok ⟨sv, rv, none⟩) ∧
      (∀ mv, getCell0 resp "method_used" = some mv →
        (delete s t batch table_name).result = .ok ⟨sv, rv, some mv⟩)) := by
  have he : ensureConnected s = none := by
    unfold ensureConnected
    rw [hc, hh]
    rfl
  refine ⟨fun hd => ⟨fun hm => ?_, fun mv hmv => ?_⟩,
    fun hd => ⟨fun hm => ?_, fun mv hmv => ?_⟩⟩
  · exact actionOp_result_of_parse _ _ _ _ _ _ _ _ he hd
      (parseOpResult_no_method resp sv rv hs hr hm)
  · exact actionOp_result_of_parse _ _ _ _ _ _ _ _ he hd
      (parseOpResult_with_method resp sv rv mv hs hr hmv)
  · exact actionOp_result_of_parse _ _ _ _ _ _ _ _ he hd
      (parseOpResult_no_method resp sv rv hs hr hm)
  · exact actionOp_result_of_parse _ _ _ _ _ _ _ _ he hd
      (parseOpResult_with_method resp sv rv mv hs hr hmv)

/-- A fixed server response batch: `{success: [true], rows_affected: [1]}`,
with no `method_used` column. -/
def respFixture : ColumnarBatch :=
  [("success", [.vBool true]), ("rows_affected", [.vInt 1])]

/-- A transport answering every action with `respFixture`'s encoding. -/
def tResp : Transport :=
  ⟨.ok (), .ok (), fun _ _ => .ok (), fun _ => .ok [],
    fun _ _ => .ok (ipcEncode respFixture)⟩

/-- C7 witness: a connected client, a concrete 1-row batch, and the
fixed `{success, rows_affected}` response without `method_used`. -/
theorem C7_witness :
    (update ⟨true, true⟩ tResp [("id", [.vInt 1])] "users").result =
      .ok ⟨.vBool true, .vInt 1, none⟩ ∧
    (delete ⟨true, true⟩ tResp [("id", [.vInt 1])] "users").result =
      .ok ⟨.vBool true, .vInt 1, none⟩ :=
  have h := C7_update_delete_response_extraction ⟨true, true⟩ tResp
    [("id", [.vInt 1])] respFixture "users" (.vBool true) (.vInt 1)
    rfl rfl rfl rfl
  ⟨(h.1 rfl).1 rfl, (h.2 rfl).1 rfl⟩

/-! ## C8: the global client facade -/

/-- The lazy-reconnect path always stores the freshly connected client
and, when delegation happens, delegates to exactly that client. -/
theorem freshGlobalClient_spec (cfg : A2FlightClientConfig) (t : Transport) :
    (freshGlobalClient cfg t).globalClient = some (connect cfg t).state ∧
    (∀ c, (freshGlobalClient cfg t).delegated = .ok c →
      c = (connect cfg t).state) ∧
    ((connect cfg t).result = .ok true →
      (freshGlobalClient cfg t).delegated = .ok (connect cfg t).state) := by
  unfold freshGlobalClient
  split
  · exact ⟨rfl, fun c h => (Except.ok.injEq _ _ ▸ congrArg id h).symm ▸ by
      cases h; rfl, fun _ => rfl⟩
  · next e heq =>
    refine ⟨rfl, fun c h => Except.noConfusion h, fun h => ?_⟩
    rw [heq] at h
    exact Except.noConfusion h

/-- C8: the facade keeps at most one client reference; every CRUD call
delegates to the stored client; a connected stored client is reused
as-is; when none is stored or the stored one reports disconnected, a
fresh client is constructed, connected, and replaces the reference
before delegation; `a2db_close` clears the reference and leaves the old
client disconnected. -/
theorem C8_global_facade (cfg : A2FlightClientConfig) (t : Transport)
    (g : Option ClientState) :
    (∀ c, (getGlobalClient cfg t g).delegated = .ok c →
      (getGlobalClient cfg t g).globalClient = some c) ∧
    (∀ c, g = some c → isConnected c = true →
      getGlobalClient cfg t g = ⟨some c, .ok c⟩) ∧
    ((g = none ∨ ∃ c, g = some c ∧ isConnected c = false) →
      (getGlobalClient cfg t g).globalClient = some (connect cfg t).state ∧
      ((connect cfg t).result = .ok true →
        (getGlobalClient cfg t g).delegated = .ok (connect cfg t).state)) ∧
    (a2dbClose g).1 = none ∧
    (∀ c, g = some c → ∃ c', (a2dbClose g).2 = some c' ∧ isConnected c' = false) := by
  obtain ⟨hg1, hg2, hg3⟩ := freshGlobalClient_spec cfg t
  have hnone : getGlobalClient cfg t none = freshGlobalClient cfg t := rfl
  have hsome : ∀ c, getGlobalClient cfg t (some c) =
      if isConnected c then ⟨some c, .ok c⟩ else freshGlobalClient cfg t :=
    fun _ => rfl
  refine ⟨?_, ?_, ?_, ?_, ?_⟩
  · intro c h
    cases g with
    | none =>
      rw [hnone] at h ⊢
      rw [hg1, hg2 c h]
    | some c0 =>
      by_cases hic : isConnected c0 = true
      · rw [hsome c0, if_pos hic] at h ⊢
        cases h
        rfl
      · rw [Bool.not_eq_true] at hic
        rw [hsome c0, hic, if_neg (by simp)] at h ⊢
        rw [hg1, hg2 c h]
  · intro c hgc hic
    subst hgc
    rw [hsome c, if_pos hic]
  · intro hcase
    have hr : getGlobalClient cfg t g = freshGlobalClient cfg t := by
      rcases hcase with h | ⟨c, hgc, hic⟩
      · rw [h, hnone]
      · subst hgc
        rw [hsome c, hic, if_neg (by simp)]
    rw [hr]
    exact ⟨hg1, hg3⟩
  · cases g <;> rfl
  · intro c hgc
    subst hgc
    refine ⟨closeClient c, rfl, ?_⟩
    unfold closeClient
    by_cases hhc : c.hasClient = true
    · rw [if_pos hhc]
      decide
    · rw [Bool.not_eq_true] at hhc
      rw [if_neg (by simp [hhc])]
      simp [isConnected, hhc]

/-- C8 witness: a stored disconnected client is replaced by a freshly
connected one, and close clears the reference. -/
theorem C8_witness :
    (getGlobalClient cfgNoCred tDead (some initialState)).globalClient =
      some (connect cfgNoCred tDead).state ∧
    (getGlobalClient cfgNoCred tDead (some initialState)).delegated =
      .ok (connect cfgNoCred tDead).state ∧
    (a2dbClose (some initialState)).1 = none :=
  have h := C8_global_facade cfgNoCred tDead (some initialState)
  have h3 := h.2.2.1 (Or.inr ⟨initialState, rfl, rfl⟩)
  ⟨h3.1, h3.2 rfl, h.2.2.2.1⟩

/-! ## C9: no retries -/

/-- Bool test that an operation raised. -/
def isErr : Except String α → Bool
  | .error _ => true
  | .ok _ => false

/-- `connect` never invokes the same transport primitive twice. -/
theorem nodup_la_auth :
    ([Prim.listActions, Prim.authenticateBasicToken] : List Prim).Nodup := by
  decide

theorem connect_trace_nodup (cfg : A2FlightClientConfig) (t : Transport) :
    (connect cfg t).trace.Nodup := by
  unfold connect
  split
  · split
    · exact List.nodup_singleton _
    · split
      · split <;> exact nodup_la_auth
      · split
        · exact List.nodup_singleton _
        · exact List.nodup_singleton _
  · exact List.nodup_nil

/-- C9 counterexample: in `connect`'s auth auto-detection, a failed
introspection probe is followed by a further transport invocation (the
authenticate call), and the call does not raise at all — it succeeds. -/
theorem C9_counterexample :
    tAuthRequired.listActions = .error "Flight returned unauthenticated error" ∧
    (connect cfgFixture tAuthRequired).trace =
      [.listActions, .authenticateBasicToken] ∧
    (connect cfgFixture tAuthRequired).result = .ok true :=
  ⟨rfl, rfl, rfl⟩

/-- C9 amended: no transport primitive is ever invoked more than once
within a single call to connect, insert, select, select_streaming,
update, or delete; each CRUD call raises immediately when its single
transport primitive fails; the one post-failure transport invocation in
the core is connect's single authenticate call after a probe failure
classified as auth-required, and if that authenticate call also fails,
connect raises with no further invocation. -/
theorem C9_amended_no_retries (cfg : A2FlightClientConfig) (s : ClientState)
    (t : Transport) (batch : ColumnarBatch) (name query : String) :
    (connect cfg t).trace.Nodup ∧
    (insert cfg s t batch name).trace.Nodup ∧
    (select s t query).trace.Nodup ∧
    (selectStreaming s t query).trace.Nodup ∧
    (update s t batch name).trace.Nodup ∧
    (delete s t batch name).trace.Nodup ∧
    (∀ e, t.doPut name batch = .error e →
      isErr (insert cfg s t batch name).result = true) ∧
    (∀ e, t.doGet query = .error e →
      isErr (select s t query).result = true ∧
      isErr (selectStreaming s t query).result = true) ∧
    (∀ e, t.doAction "update" (buildEnvelope name batch) = .error e →
      isErr (update s t batch name).result = true) ∧
    (∀ e, t.doAction "delete" (buildEnvelope name batch) = .error e →
      isErr (delete s t batch name).result = true) ∧
    (∀ e, (cfg.api_key != "" && cfg.api_key != sentinelApiKey) = true →
      t.listActions = .error e →
      (lcontains e "unauthenticated" || lcontains e "unauthorized") = true →
      (∀ ae, t.authenticateBasicToken = .error ae →
        isErr (connect cfg t).result = true ∧
        (connect cfg t).trace = [.listActions, .authenticateBasicToken])) := by
  refine ⟨connect_trace_nodup cfg t, ?_, ?_, ?_, ?_, ?_, ?_, ?_, ?_, ?_, ?_⟩
  · unfold insert
    split
    · exact List.nodup_nil
    · split
      · exact List.nodup_singleton _
      · split <;> exact List.nodup_singleton _
  · unfold select
    split
    · exact List.nodup_nil
    · split <;> exact List.nodup_singleton _
  · unfold selectStreaming
    split
    · exact List.nodup_nil
    · split <;> exact List.nodup_singleton _
  · unfold update actionOp
    split
    · exact List.nodup_nil
    · split
      · exact List.nodup_singleton _
      · split <;> exact List.nodup_singleton _
  · unfold delete actionOp
    split
    · exact List.nodup_nil
    · split
      · exact List.nodup_singleton _
      · split <;> exact List.nodup_singleton _
  · intro e he
    unfold insert
    split
    · rfl
    · split
      · next u heq =>
          rw [he] at heq
          exact Except.noConfusion heq
      · split <;> rfl
  · intro e he
    constructor
    · unfold select
      split
      · rfl
      · split
        · next chunks heq =>
            rw [he] at heq
            exact Except.noConfusion heq
        · rfl
    · unfold selectStreaming
      split
      · rfl
      · split
        · next chunks heq =>
            rw [he] at heq
            exact Except.noConfusion heq
        · rfl
  · intro e he
    unfold update actionOp
    split
    · rfl
    · split
      · rfl
      · next resp heq =>
          rw [he] at heq
          exact Except.noConfusion heq
  · intro e he
    unfold delete actionOp
    split
    · rfl
    · split
      · rfl
      · next resp heq =>
          rw [he] at heq
          exact Except.noConfusion heq
  · intro e hk hl ha ae hab
    have hc : connect cfg t =
        ⟨.error (connectWrapError cfg (authClassify cfg ae)), ⟨false, true⟩,
          [.listActions, .authenticateBasicToken]⟩ := by
      unfold connect authenticateRun
      rw [hk, hl, hab]
      simp [ha]
    rw [hc]
    exact ⟨rfl, rfl⟩

/-- A transport rejecting both the probe and the auth handshake. -/
def tAuthDenied : Transport :=
  ⟨.error "unauthenticated", .error "access denied", fun _ _ => .ok (),
    fun _ => .ok [], fun _ b => .ok b⟩

/-- C9 amended, witness: the no-retry facts evaluated against the dead
transport (every CRUD failure hypothesis discharged) and against a
transport whose probe and auth both fail. -/
theorem C9_amended_witness :
    (connect cfgFixture tDead).trace.Nodup ∧
    isErr (insert cfgFixture ⟨true, true⟩ tDead [] "t").result = true ∧
    isErr (select ⟨true, true⟩ tDead "SELECT 1").result = true ∧
    isErr (selectStreaming ⟨true, true⟩ tDead "SELECT 1").result = true ∧
    isErr (update ⟨true, true⟩ tDead [] "t").result = true ∧
    isErr (delete ⟨true, true⟩ tDead [] "t").result = true ∧
    isErr (connect cfgFixture tAuthDenied).result = true ∧
    (connect cfgFixture tAuthDenied).trace =
      [.listActions, .authenticateBasicToken] :=
  have h := C9_amended_no_retries cfgFixture ⟨true, true⟩ tDead [] "t" "SELECT 1"
  have h2 := C9_amended_no_retries cfgFixture ⟨true, true⟩ tAuthDenied [] "t" "SELECT 1"
  have hca := h2.2.2.2.2.2.2.2.2.2.2 "unauthenticated" (by decide) rfl
    (by decide) "access denied" rfl
  ⟨h.1, h.2.2.2.2.2.2.1 "unavailable" rfl,
    (h.2.2.2.2.2.2.2.1 "unavailable" rfl).1,
    (h.2.2.2.2.2.2.2.1 "unavailable" rfl).2,
    h.2.2.2.2.2.2.2.2.1 "unavailable" rfl,
    h.2.2.2.2.2.2.2.2.2.1 "unavailable" rfl,
    hca.1, hca.2⟩

/-! ## C10: connect never returns False -/

/-- Every terminating `connect` path either raises or returns `True`
with the connected state set. -/
theorem connect_ok_shape (cfg : A2FlightClientConfig) (t : Transport) :
    ((connect cfg t).result = .ok true ∧ (connect cfg t).state = ⟨true, true⟩) ∨
    (∃ m, (connect cfg t).result = .error m) := by
  unfold connect
  split
  · split
    · exact .inl ⟨rfl, rfl⟩
    · split
      · split
        · exact .inl ⟨rfl, rfl⟩
        · exact .inr ⟨_, rfl⟩
      · split
        · exact .inl ⟨rfl, rfl⟩
        · exact .inr ⟨_, rfl⟩
  · exact .inl ⟨rfl, rfl⟩

/-- C10: `connect` never returns `False` — any non-raising run returns
`True` with the client reporting connected — and with an empty or
sentinel api_key it performs no transport call at all, succeeding even
against an unreachable server. -/
theorem C10_connect_never_false (cfg : A2FlightClientConfig) (t : Transport) :
    (∀ b, (connect cfg t).result = .ok b →
      b = true ∧ isConnected (connect cfg t).state = true) ∧
    (cfg.api_key = "" ∨ cfg.api_key = sentinelApiKey →
      connect cfg t = ⟨.ok true, ⟨true, true⟩, []⟩) := by
  constructor
  · intro b h
    rcases connect_ok_shape cfg t with ⟨h1, h2⟩ | ⟨m, hm⟩
    · rw [h1] at h
      cases h
      rw [h2]
      exact ⟨rfl, rfl⟩
    · rw [hm] at h
      exact Except.noConfusion h
  · intro h
    apply connect_cred_false
    rcases h with h | h <;> simp [h]

/-- C10 witness: the sentinel-key config against the dead transport
returns `True`, connected, with no transport call. -/
theorem C10_witness :
    (true = true ∧ isConnected (connect cfgNoCred tDead).state = true) ∧
    connect cfgNoCred tDead = ⟨.ok true, ⟨true, true⟩, []⟩ :=
  ⟨(C10_connect_never_false cfgNoCred tDead).1 true rfl,
    (C10_connect_never_false cfgNoCred tDead).2 (Or.inr rfl)⟩

end A2Flight
